import Mathlib

/-!
Verification of the PySprit project generator (src/main.py) against its
natural-language specification.

The Python text-processing functions are embedded over `List Char`
(Python `str`).  Python's `json.loads` is standard-library code external
to this repository, so the recovery pipeline is parametrised over an
abstract structural parse function `List Char → Except (List Char) Json`
(`Except.error` carries the parse-error text).  Remote model calls
(`ask_ai`, `ask_ai_stream`) are network collaborators; a single
generation attempt observes one streamed response and at most one repair
response, modelled by the `Oracle` record (`none` = the Python functions
returned `None` after catching a transport error).
-/

namespace PySprit

/-- The backtick character (written via its code point). -/
def bt : Char := Char.ofNat 96

/-- The single-quote character. -/
def sq : Char := Char.ofNat 39

/-- The backslash character. -/
def bs : Char := '\\'

/-- The opening curly brace character. -/
def lb : Char := Char.ofNat 123

/-- The closing curly brace character. -/
def rb : Char := Char.ofNat 125

/-- Python whitespace as stripped by `str.strip()` and matched by the
regex class `\s` (ASCII range: space, tab, newline, carriage return,
vertical tab, form feed). -/
def isPyWs (c : Char) : Bool :=
  c = ' ' || c = '\t' || c = '\n' || c = '\r' || c = Char.ofNat 11 || c = Char.ofNat 12

/-- The regex class `[a-zA-Z0-9]` used for the fence language tag. -/
def isAlnum (c : Char) : Bool :=
  c.isAlpha || c.isDigit

/-- Drop a trailing run of characters satisfying `p`. -/
def dropTrail (p : Char → Bool) (l : List Char) : List Char :=
  (l.reverse.dropWhile p).reverse

/-- Python `str.strip()`: remove leading and trailing whitespace. -/
def pyStrip (l : List Char) : List Char :=
  dropTrail isPyWs (l.dropWhile isPyWs)

/-- Embedding of `re.sub(r"^```[a-zA-Z0-9]*\s*", "", s)` from `clean_ai_output`
(src/main.py line 34): the pattern is anchored at the start, so at most
one match exists; it removes a leading triple backtick, then a greedy
run of alphanumerics (language tag), then a greedy run of whitespace. -/
def dropFenceOpen (l : List Char) : List Char :=
  if [bt, bt, bt].isPrefixOf l then ((l.drop 3).dropWhile isAlnum).dropWhile isPyWs else l

/-- Embedding of `re.sub(r"```$", "", s)` from `clean_ai_output` (src/main.py line
35), specialised to its call site: the argument is always
`output.strip()`, which cannot end in a newline, so `$` can only match
at the very end of the string and the substitution removes a final
triple backtick when present (a single match at most, since a second
match would need `$` to hold before the end). -/
def dropFenceClose (l : List Char) : List Char :=
  if [bt, bt, bt].isPrefixOf l.reverse then (l.reverse.drop 3).reverse else l

/-- Embedding of `clean_ai_output` (src/main.py lines 32-36): strip, remove a leading
fence opener, strip, remove a trailing fence closer, strip. -/
def clean_ai_output (output : List Char) : List Char :=
  pyStrip (dropFenceClose (pyStrip (dropFenceOpen (pyStrip output))))

/-- Embedding of `re.sub(r",\s*([\]}])", r"\1", s)` (src/main.py line 41): scan left
to right; a comma followed by a whitespace run and then a closing brace
or bracket is replaced by that closer, and scanning resumes after it.
The recursion consumes at least one character per step, so a fuel
argument equal to the input length makes it structural; the zero-fuel
branch is unreachable from `removeTrailingCommas`. -/
def removeTrailingCommasF : Nat → List Char → List Char
  | _, [] => []
  | 0, l => l
  | fuel + 1, c :: rest =>
    if c = ',' then
      match rest.dropWhile isPyWs with
      | b :: rest' =>
        if b = ']' || b = rb then b :: removeTrailingCommasF fuel rest'
        else c :: removeTrailingCommasF fuel rest
      | [] => c :: removeTrailingCommasF fuel rest
    else c :: removeTrailingCommasF fuel rest

/-- Entry point for the trailing-comma substitution of src/main.py line 41. -/
def removeTrailingCommas (l : List Char) : List Char :=
  removeTrailingCommasF l.length l

/-- Embedding of `re.sub(r"(?<!\\)'", '"', s)` (src/main.py line 42): every single
quote whose preceding character in the original string is not a
backslash becomes a double quote.  `prev` is the previous character of
the original input (`none` at position zero). -/
def fixQuotesAux : Option Char → List Char → List Char
  | _, [] => []
  | prev, c :: rest =>
    (if c = sq ∧ prev ≠ some bs then '"' else c) :: fixQuotesAux (some c) rest

/-- Entry point for the quote substitution of src/main.py line 42. -/
def fixQuotes (l : List Char) : List Char :=
  fixQuotesAux none l

/-- Lines 43-44 of src/main.py: prepend a brace when the text does not
start with a brace or bracket (Python `startswith` is False on the
empty string, so the empty text gets the brace). -/
def ensureOpen (l : List Char) : List Char :=
  if l.head? = some lb ∨ l.head? = some '[' then l else lb :: l

/-- Lines 45-46 of src/main.py: append a brace when the text does not
end with a brace or bracket. -/
def ensureClose (l : List Char) : List Char :=
  if l.getLast? = some rb ∨ l.getLast? = some ']' then l else l ++ [rb]

/-- Embedding of `local_json_repair` (src/main.py lines 38-47): strip, then the two
regex substitutions, then the two bracket-delimiter fixups. -/
def local_json_repair (broken_json : List Char) : List Char :=
  ensureClose (ensureOpen (fixQuotes (removeTrailingCommas (pyStrip broken_json))))

/-- Modelled from the spec: §4.2 and claim C7 describe the local repair
heuristic as exactly the four steps (a) trailing-comma removal,
(b) quote replacement, (c) leading-delimiter fixup, (d) trailing-delimiter
fixup, in that order, with no initial trim.  This definition follows
those words, to be compared with `local_json_repair` above. -/
def specLocalRepairSteps (x : List Char) : List Char :=
  ensureClose (ensureOpen (fixQuotes (removeTrailingCommas x)))

/-- JSON values as returned by a structural parse (`json.loads`). -/
inductive Json where
  | obj : List (List Char × Json) → Json
  | arr : List Json → Json
  | str : List Char → Json
  | num : Int → Json
  | bool : Bool → Json
  | null : Json

/-- Whether a JSON value is a string (the shape a FileMap entry's value
must have for `Path.write_text` to accept it). -/
def Json.isStr : Json → Bool
  | .str _ => true
  | _ => false

/-- The underlying text of a string value (unused constructors map to []). -/
def Json.strVal : Json → List Char
  | .str s => s
  | _ => []

/-- Python truthiness of a parsed JSON value, as tested by
`if not files:` on src/main.py line 157: empty dict, empty list, empty
string, zero, False and None are falsy. -/
def pyFalsyJson : Json → Bool
  | .obj entries => entries.isEmpty
  | .arr elems => elems.isEmpty
  | .str s => s.isEmpty
  | .num n => n = 0
  | .bool b => !b
  | .null => true

/-- The events a single run of the generator yields (src/main.py lines
118, 138, 147, 164, 172, 175).  `console.print` diagnostics are not
yields and are not events. -/
inductive Event where
  | missingPrompt : Event
  | started : Event
  | noOutput : Event
  | failed : List Char → Event
  | fileWritten : List (List Char) → Event
  | completed : List (List Char) → Event
  deriving DecidableEq

/-- Python exceptions the write loop can raise uncaught:
`files.items()` on a non-dict raises AttributeError (line 168);
`write_text` on a non-string content raises TypeError (line 171). -/
inductive PyError where
  | attributeError : PyError
  | typeError : PyError
  deriving DecidableEq

/-- The remote responses one generation attempt observes:
`streamResp` is the return of `ask_ai_stream` (line 140) and
`repairResp` the return of `ask_ai` inside `repair_json_with_ai`
(line 103); `none` models the Python `None` returned after a caught
transport error. -/
structure Oracle where
  streamResp : Option (List Char)
  repairResp : Option (List Char)

/-- Everything observable about one run of
`generate_project_with_progress`: the yielded events, whether the
remote-repair call (line 156) and the local-repair heuristic (line 159)
ran, the value bound to `files` when the write loop is reached, the
text writes performed (effective path after OS `..` resolution, and
content), and an uncaught exception if one was raised. -/
structure PipeResult where
  events : List Event
  remoteInvoked : Bool
  localInvoked : Bool
  recovered : Option Json
  writes : List (List (List Char) × List Char)
  crashed : Option PyError

/-- Embedding of `repair_json_with_ai` (src/main.py lines 99-110): when the remote
call yields truthy text, sanitize it and parse; a parse error or a
falsy response yields None. -/
def repair_json_with_ai (p : List Char → Except (List Char) Json)
    (resp : Option (List Char)) : Option Json :=
  match resp with
  | none => none
  | some fixed =>
    if fixed = [] then none
    else
      match p (clean_ai_output fixed) with
      | .ok v => some v
      | .error _ => none

/-- The project root `Path("generated_code") / "hibye"` (src/main.py line 137). -/
def projectRoot : List (List Char) :=
  ["generated_code".toList, "hibye".toList]

/-- Split a relative path on slashes, as `Path` treats a key like
`a/b.txt` as nested segments. -/
def splitSlash : List Char → List (List Char)
  | [] => [[]]
  | c :: rest =>
    match splitSlash rest with
    | [] => [[c]]
    | g :: gs => if c = '/' then [] :: g :: gs else (c :: g) :: gs

/-- Effective location of a write: the operating system resolves each
`..` segment against the preceding segment when the path is opened
(pathlib itself does not normalise). -/
def normalizePath (segs : List (List Char)) : List (List Char) :=
  List.foldl (fun acc seg => if seg = ['.', '.'] then acc.dropLast else acc ++ [seg]) [] segs

/-- The write loop body of src/main.py lines 168-173, over the entries
of `files` in insertion order.  A string value produces a write and a
`fileWritten` yield (the yield carries the joined, unnormalised path
exactly as the f-string prints it; the write record carries the
effective path); a non-string value raises TypeError at `write_text`
before yielding, aborting the loop. -/
def writePhase : List (List Char × Json) →
    List Event × List (List (List Char) × List Char) × Option PyError
  | [] => ([], [], none)
  | (rel, Json.str content) :: rest =>
    let r := writePhase rest
    (Event.fileWritten (projectRoot ++ splitSlash rel) :: r.1,
     (normalizePath (projectRoot ++ splitSlash rel), content) :: r.2.1,
     r.2.2)
  | _ :: _ => ([], [], some PyError.typeError)

/-- Lines 168-175 of src/main.py: iterate `files.items()` — raising
AttributeError when `files` is not a dict — and, when every entry was
written, yield the final completion message. -/
def materialize (files : Json) :
    List Event × List (List (List Char) × List Char) × Option PyError :=
  match files with
  | Json.obj entries =>
    let r := writePhase entries
    match r.2.2 with
    | none => (r.1 ++ [Event.completed projectRoot], r.2.1, none)
    | some e => (r.1, r.2.1, some e)
  | _ => ([], [], some PyError.attributeError)

/-- Result of reaching the write loop with value `files`, given which
repair tiers ran. -/
def runWrite (files : Json) (remote localRan : Bool) : PipeResult :=
  let m := materialize files
  ⟨Event.started :: m.1, remote, localRan, some files, m.2.1, m.2.2⟩

/-- The local-repair tier (src/main.py lines 158-165): patch the
original sanitized text and parse the result; on failure yield the
terminal error message carrying the last parse error. -/
def localTier (p : List Char → Except (List Char) Json) (cleaned : List Char) : PipeResult :=
  match p (local_json_repair cleaned) with
  | .ok files => runWrite files true true
  | .error e => ⟨[Event.started, Event.failed e], true, true, none, [], none⟩

/-- Result of the early return when `ask_ai_stream` produced `None` or
the empty string (src/main.py lines 146-148). -/
def noOutputResult : PipeResult :=
  ⟨[Event.started, Event.noOutput], false, false, none, [], none⟩

/-- Embedding of `generate_project_with_progress` (src/main.py lines 114-175),
parametrised over the structural parse function `p` (`json.loads`) and
the remote responses `o`.  `promptExists` models the SYSTEM_PROMPT.md
existence check of lines 116-119.  Control flow: stream, falsy-output
early return, sanitize, direct parse; on parse failure the remote
repair runs, and a `None` or falsy result falls through to the local
tier applied to the original sanitized text. -/
def generate_project_with_progress (p : List Char → Except (List Char) Json)
    (o : Oracle) (promptExists : Bool) : PipeResult :=
  if promptExists then
    match o.streamResp with
    | none => noOutputResult
    | some raw =>
      if raw = [] then noOutputResult
      else
        match p (clean_ai_output raw) with
        | .ok files => runWrite files false false
        | .error _ =>
          match repair_json_with_ai p o.repairResp with
          | some files =>
            if pyFalsyJson files then localTier p (clean_ai_output raw)
            else runWrite files true false
          | none => localTier p (clean_ai_output raw)
  else
    ⟨[Event.missingPrompt], false, false, none, [], none⟩

/-- Concrete parse function for the C1 witness: the sanitized empty
object parses to the empty dict, everything else fails (agreeing with
`json.loads` on the strings involved). -/
def p1 : List Char → Except (List Char) Json :=
  fun s => if s = [lb, rb] then Except.ok (Json.obj []) else Except.error ['e']

/-- Oracle for the C1 witness: the stream returns the two-character
object text, the repair tier is never reached. -/
def o1 : Oracle := ⟨some [lb, rb], none⟩

/-- Concrete parse function for the C2 counterexample: only the empty
object text parses (to the empty, falsy dict), mirroring `json.loads`
on the three strings the run involves. -/
def p2 : List Char → Except (List Char) Json :=
  fun s => if s = [lb, rb] then Except.ok (Json.obj []) else Except.error ['e']

/-- Oracle for the C2 counterexample: the stream returns the unparseable
text "x" and the remote repair returns the empty-object text. -/
def o2 : Oracle := ⟨some ['x'], some [lb, rb]⟩

/-- A truthy (non-empty) FileMap used by the amended-C2 witness. -/
def vGood : Json := Json.obj [("a.txt".toList, Json.str "hi".toList)]

/-- Concrete parse function for the amended-C2 witness: the remote
repair text "REP" parses to a non-empty FileMap, everything else fails. -/
def pW2 : List Char → Except (List Char) Json :=
  fun s => if s = "REP".toList then Except.ok vGood else Except.error ['e']

/-- Oracle for the amended-C2 witness. -/
def oW2 : Oracle := ⟨some ['x'], some "REP".toList⟩

/-- Concrete parse function that always fails, for the C3 and C10
witnesses. -/
def p3 : List Char → Except (List Char) Json :=
  fun _ => Except.error ['e']

/-- Oracle for the C3 witness: a stream result whose every repair tier
fails (the remote call itself returns None). -/
def o3 : Oracle := ⟨some ['x'], none⟩

/-- Concrete parse function for the C9 failing input: the sanitized
text "[]" parses to an empty JSON array, as `json.loads` does. -/
def p9 : List Char → Except (List Char) Json :=
  fun s => if s = ['[', ']'] then Except.ok (Json.arr []) else Except.error ['e']

/-- Oracle for the C9 failing input: the model streams the array text. -/
def o9 : Oracle := ⟨some ['[', ']'], none⟩

/-- Oracle for the C10 witness: the stream client returned None. -/
def o10 : Oracle := ⟨none, none⟩

/-- A validated three-entry FileMap in insertion order, for the C8
witness. -/
def entriesW8 : List (List Char × Json) :=
  [("a.txt".toList, Json.str "hi".toList),
   ("b.txt".toList, Json.str []),
   ("c/d.txt".toList, Json.str ['z'])]

/-- The C4 failing input: a FileMap whose single key contains a
parent-directory segment. -/
def escEntries : List (List Char × Json) :=
  [("../escape.txt".toList, Json.str "hi".toList)]

/-- The C5 counterexample input: text ending in six backticks. -/
def cex5 : List Char := "abc".toList ++ [bt, bt, bt, bt, bt, bt]

/-- The C7 counterexample input: an object text with a leading space. -/
def cex7 : List Char := ' ' :: lb :: [rb]

/-- Length of a dropWhile result never exceeds the input length. -/
theorem dropWhileLenLe (p : Char → Bool) (l : List Char) :
    (l.dropWhile p).length ≤ l.length := by
  induction l with
  | nil => simp
  | cons a t ih =>
    rw [List.dropWhile_cons]
    split
    · exact Nat.le_trans ih (Nat.le_succ _)
    · exact Nat.le_refl _

/-- dropWhile is idempotent. -/
theorem dropWhileIdem (p : Char → Bool) (l : List Char) :
    (l.dropWhile p).dropWhile p = l.dropWhile p := by
  induction l with
  | nil => rfl
  | cons a t ih =>
    rw [List.dropWhile_cons]
    split
    · exact ih
    · next h => rw [List.dropWhile_cons, if_neg h]

/-- A list fixed by dropWhile has a head not satisfying the predicate. -/
theorem headFalseOfDropWhileSelf (p : Char → Bool) (a : Char) (r : List Char)
    (h : (a :: r).dropWhile p = a :: r) : p a = false := by
  by_cases hp : p a = true
  · rw [List.dropWhile_cons, if_pos hp] at h
    have hle := dropWhileLenLe p r
    rw [h] at hle
    simp only [List.length_cons] at hle
    omega
  · simpa using hp

/-- A list fixed by dropWhile stays fixed on each of its prefixes. -/
theorem dropWhileSelfOfPrefix (p : Char → Bool) (t u : List Char)
    (hm : (t ++ u).dropWhile p = t ++ u) : t.dropWhile p = t := by
  cases t with
  | nil => rfl
  | cons a t' =>
    have ha : p a = false :=
      headFalseOfDropWhileSelf p a (t' ++ u) (by simpa using hm)
    rw [List.dropWhile_cons, if_neg (by simp [ha])]

/-- Every list is its trailing-trimmed form followed by the trimmed-off
run. -/
theorem dropTrailPrefix (p : Char → Bool) (m : List Char) :
    m = dropTrail p m ++ (m.reverse.takeWhile p).reverse := by
  unfold dropTrail
  calc m = m.reverse.reverse := (List.reverse_reverse m).symm
    _ = (m.reverse.takeWhile p ++ m.reverse.dropWhile p).reverse := by
          rw [List.takeWhile_append_dropWhile]
    _ = (m.reverse.dropWhile p).reverse ++ (m.reverse.takeWhile p).reverse := by
          rw [List.reverse_append]

/-- Trailing trim preserves being fixed by a leading dropWhile. -/
theorem dropWhileDropTrail (p : Char → Bool) (m : List Char)
    (hm : m.dropWhile p = m) :
    (dropTrail p m).dropWhile p = dropTrail p m := by
  apply dropWhileSelfOfPrefix p (dropTrail p m) (m.reverse.takeWhile p).reverse
  rw [← dropTrailPrefix]
  exact hm

/-- dropTrail is idempotent. -/
theorem dropTrailIdem (p : Char → Bool) (m : List Char) :
    dropTrail p (dropTrail p m) = dropTrail p m := by
  unfold dropTrail
  rw [List.reverse_reverse, dropWhileIdem]

/-- Python strip is idempotent. -/
theorem pyStripIdem (l : List Char) : pyStrip (pyStrip l) = pyStrip l := by
  unfold pyStrip
  rw [dropWhileDropTrail isPyWs _ (dropWhileIdem isPyWs l), dropTrailIdem]

/-- The sanitizer's output carries no surrounding whitespace. -/
theorem cleanStripped (x : List Char) :
    pyStrip (clean_ai_output x) = clean_ai_output x := by
  unfold clean_ai_output
  rw [pyStripIdem]

/-- C1: when the structural parse of the sanitized stream output
succeeds with value v, the pipeline's recovered FileMap is exactly v
and neither the remote-repair call nor the local-repair heuristic runs. -/
theorem c1_direct_parse_skips_repair (p : List Char → Except (List Char) Json)
    (o : Oracle) (raw : List Char) (v : Json)
    (h1 : o.streamResp = some raw) (h2 : raw ≠ [])
    (h3 : p (clean_ai_output raw) = Except.ok v) :
    (generate_project_with_progress p o true).recovered = some v ∧
    (generate_project_with_progress p o true).remoteInvoked = false ∧
    (generate_project_with_progress p o true).localInvoked = false := by
  simp [generate_project_with_progress, h1, h2, h3, runWrite]

/-- Witness for C1 at a concrete parse function and oracle. -/
theorem c1_witness :
    (generate_project_with_progress p1 o1 true).recovered = some (Json.obj []) ∧
    (generate_project_with_progress p1 o1 true).remoteInvoked = false ∧
    (generate_project_with_progress p1 o1 true).localInvoked = false :=
  c1_direct_parse_skips_repair p1 o1 [lb, rb] (Json.obj []) rfl (by decide) rfl

/-- C2 counterexample: direct parse of the sanitized text "x" fails and
the remote repair round-trip returns text whose sanitized form parses
as valid JSON (the empty object), yet the run still invokes the local
repair heuristic and does not recover the remote-repaired FileMap,
because `if not files:` on line 157 treats the falsy empty dict as a
failure.  This refutes C2 as stated. -/
theorem c2_counterexample :
    p2 (clean_ai_output ['x']) = Except.error ['e'] ∧
    p2 (clean_ai_output [lb, rb]) = Except.ok (Json.obj []) ∧
    (generate_project_with_progress p2 o2 true).localInvoked = true ∧
    (generate_project_with_progress p2 o2 true).recovered = none :=
  ⟨rfl, rfl, rfl, rfl⟩

/-- C2 (amended): when direct parse fails, the remote repair round-trip
returns non-empty text whose sanitized form parses to a truthy (not
falsy) JSON value v, the pipeline recovers exactly v and the local
repair heuristic never runs. -/
theorem c2_truthy_remote_repair (p : List Char → Except (List Char) Json)
    (o : Oracle) (raw e fx : List Char) (v : Json)
    (h1 : o.streamResp = some raw) (h2 : raw ≠ [])
    (h3 : p (clean_ai_output raw) = Except.error e)
    (h4 : o.repairResp = some fx) (h5 : fx ≠ [])
    (h6 : p (clean_ai_output fx) = Except.ok v)
    (h7 : pyFalsyJson v = false) :
    (generate_project_with_progress p o true).recovered = some v ∧
    (generate_project_with_progress p o true).remoteInvoked = true ∧
    (generate_project_with_progress p o true).localInvoked = false := by
  simp [generate_project_with_progress, h1, h2, h3, repair_json_with_ai,
        h4, h5, h6, h7, runWrite]

/-- Witness for the amended C2 at a concrete parse function and oracle. -/
theorem c2_witness :
    (generate_project_with_progress pW2 oW2 true).recovered = some vGood ∧
    (generate_project_with_progress pW2 oW2 true).remoteInvoked = true ∧
    (generate_project_with_progress pW2 oW2 true).localInvoked = false :=
  c2_truthy_remote_repair pW2 oW2 ['x'] ['e'] "REP".toList vGood
    rfl (by decide) rfl rfl (by decide) rfl rfl

/-- C3: when direct parse fails, the remote repair produces nothing
parseable (returns None), and the parse of the locally repaired text
fails too, the run yields exactly the start message and one failure
event carrying the last parse error, with no file-written events, no
filesystem writes, and no crash. -/
theorem c3_exhausted_tiers_single_failure (p : List Char → Except (List Char) Json)
    (o : Oracle) (raw e1 e2 : List Char)
    (h1 : o.streamResp = some raw) (h2 : raw ≠ [])
    (h3 : p (clean_ai_output raw) = Except.error e1)
    (h4 : repair_json_with_ai p o.repairResp = none)
    (h5 : p (local_json_repair (clean_ai_output raw)) = Except.error e2) :
    (generate_project_with_progress p o true).events =
      [Event.started, Event.failed e2] ∧
    (generate_project_with_progress p o true).writes = [] ∧
    (generate_project_with_progress p o true).crashed = none := by
  simp [generate_project_with_progress, h1, h2, h3, h4, localTier, h5]

/-- Witness for C3 at a concrete parse function and oracle. -/
theorem c3_witness :
    (generate_project_with_progress p3 o3 true).events =
      [Event.started, Event.failed ['e']] ∧
    (generate_project_with_progress p3 o3 true).writes = [] ∧
    (generate_project_with_progress p3 o3 true).crashed = none :=
  c3_exhausted_tiers_single_failure p3 o3 ['x'] ['e'] ['e']
    rfl (by decide) rfl rfl rfl

/-- C4: evaluating the materializer at the FileMap whose key is
"../escape.txt" shows the write lands at generated_code/escape.txt,
which is outside the project root generated_code/hibye — the escape the
claim requires to be impossible does happen in the source. -/
theorem c4_parent_segment_escapes_root :
    (materialize (Json.obj escEntries)).2.1 =
      [(["generated_code".toList, "escape.txt".toList], "hi".toList)] ∧
    List.isPrefixOf projectRoot
      ["generated_code".toList, "escape.txt".toList] = false :=
  ⟨rfl, rfl⟩

/-- C5 counterexample: for the text abc followed by six backticks, one
sanitizer pass removes only the last three backticks and a second pass
removes three more, so sanitize is not idempotent as claimed. -/
theorem c5_counterexample :
    clean_ai_output (clean_ai_output cex5) ≠ clean_ai_output cex5 := by
  decide

/-- C5 (amended): the sanitizer is idempotent on every input whose
sanitized form neither starts with a triple-backtick fence opener nor
ends with a triple-backtick fence closer. -/
theorem c5_idempotent_without_fences (x : List Char)
    (h1 : [bt, bt, bt].isPrefixOf (clean_ai_output x) = false)
    (h2 : [bt, bt, bt].isPrefixOf (clean_ai_output x).reverse = false) :
    clean_ai_output (clean_ai_output x) = clean_ai_output x := by
  have hy := cleanStripped x
  conv_lhs => rw [clean_ai_output]
  rw [hy]
  have ho : dropFenceOpen (clean_ai_output x) = clean_ai_output x := by
    unfold dropFenceOpen
    rw [h1]
    simp
  rw [ho, hy]
  have hc : dropFenceClose (clean_ai_output x) = clean_ai_output x := by
    unfold dropFenceClose
    rw [h2]
    simp
  rw [hc, hy]

/-- Witness for the amended C5 at a concrete input. -/
theorem c5_witness :
    [bt, bt, bt].isPrefixOf (clean_ai_output "abc".toList) = false ∧
    [bt, bt, bt].isPrefixOf (clean_ai_output "abc".toList).reverse = false ∧
    clean_ai_output (clean_ai_output "abc".toList) = clean_ai_output "abc".toList :=
  ⟨rfl, rfl, c5_idempotent_without_fences "abc".toList rfl rfl⟩

/-- C6: the local repair heuristic is total — the embedding is a total
function, and its result is never even empty (the delimiter fixups
guarantee at least one character), so every input yields a string. -/
theorem c6_local_repair_total (x : List Char) : local_json_repair x ≠ [] := by
  unfold local_json_repair ensureClose
  split
  · next h =>
    intro hc
    rw [hc] at h
    simp at h
  · intro hc
    simp at hc

/-- C7 counterexample: on an object text with a leading space, the
source's heuristic (which first strips) returns the empty object text,
while the claim's four steps applied verbatim prepend a spurious brace;
the claim omits the initial trim the code performs. -/
theorem c7_counterexample :
    local_json_repair cex7 ≠ specLocalRepairSteps cex7 := by
  decide

/-- C7 (amended): the local repair heuristic's output equals the
claim's four steps (a)-(d) in order, applied to the stripped input —
that is, an initial whitespace trim precedes the four steps. -/
theorem c7_trim_then_steps (x : List Char) :
    local_json_repair x = specLocalRepairSteps (pyStrip x) := rfl

/-- The write loop over an all-string FileMap produces one event and
one write per entry, in order, and no exception. -/
theorem writePhaseStr (entries : List (List Char × Json))
    (h : entries.all (fun q => q.2.isStr) = true) :
    writePhase entries =
      (entries.map (fun q => Event.fileWritten (projectRoot ++ splitSlash q.1)),
       entries.map (fun q => (normalizePath (projectRoot ++ splitSlash q.1), q.2.strVal)),
       none) := by
  induction entries with
  | nil => rfl
  | cons q rest ih =>
    obtain ⟨rel, v⟩ := q
    rw [List.all_cons, Bool.and_eq_true] at h
    obtain ⟨h1, h2⟩ := h
    cases v with
    | str s => simp [writePhase, ih h2, Json.strVal]
    | obj l => exact absurd h1 (by simp [Json.isStr])
    | arr l => exact absurd h1 (by simp [Json.isStr])
    | num n => exact absurd h1 (by simp [Json.isStr])
    | bool b => exact absurd h1 (by simp [Json.isStr])
    | null => exact absurd h1 (by simp [Json.isStr])

/-- C8: materializing a validated FileMap emits one file-written event
per entry in insertion order, followed by exactly one completion event
carrying the root path, and raises no exception. -/
theorem c8_write_order (entries : List (List Char × Json))
    (h : entries.all (fun q => q.2.isStr) = true) :
    (materialize (Json.obj entries)).1 =
      entries.map (fun q => Event.fileWritten (projectRoot ++ splitSlash q.1)) ++
        [Event.completed projectRoot] ∧
    (materialize (Json.obj entries)).2.2 = none := by
  have hw := writePhaseStr entries h
  constructor <;> simp [materialize, hw]

/-- Witness for C8 on a concrete three-entry FileMap. -/
theorem c8_witness :
    (materialize (Json.obj entriesW8)).1 =
      [Event.fileWritten (projectRoot ++ splitSlash "a.txt".toList),
       Event.fileWritten (projectRoot ++ splitSlash "b.txt".toList),
       Event.fileWritten (projectRoot ++ splitSlash "c/d.txt".toList),
       Event.completed projectRoot] ∧
    (materialize (Json.obj entriesW8)).2.2 = none :=
  c8_write_order entriesW8 rfl

/-- C9: evaluating the pipeline where the model output is the valid
JSON text "[]" (a list, not a mapping) shows the run crashes with an
uncaught AttributeError at files.items() — no failure event is yielded
— instead of validating and reporting failure as the claim requires. -/
theorem c9_nonmapping_crashes :
    (generate_project_with_progress p9 o9 true).crashed =
      some PyError.attributeError ∧
    (generate_project_with_progress p9 o9 true).events = [Event.started] ∧
    (generate_project_with_progress p9 o9 true).writes = [] :=
  ⟨rfl, rfl, rfl⟩

/-- C10: when the incremental completion returns None or the empty
accumulated text, the run yields the start message and a single
failure event, and terminates with no repair tier invoked, no
filesystem write, and no crash. -/
theorem c10_empty_output_aborts (p : List Char → Except (List Char) Json)
    (o : Oracle) (h : o.streamResp = none ∨ o.streamResp = some []) :
    (generate_project_with_progress p o true).events =
      [Event.started, Event.noOutput] ∧
    (generate_project_with_progress p o true).remoteInvoked = false ∧
    (generate_project_with_progress p o true).localInvoked = false ∧
    (generate_project_with_progress p o true).writes = [] ∧
    (generate_project_with_progress p o true).crashed = none := by
  rcases h with h | h <;>
    simp [generate_project_with_progress, h, noOutputResult]

/-- Witness for C10 with a failed stream. -/
theorem c10_witness :
    (generate_project_with_progress p3 o10 true).events =
      [Event.started, Event.noOutput] ∧
    (generate_project_with_progress p3 o10 true).remoteInvoked = false ∧
    (generate_project_with_progress p3 o10 true).localInvoked = false ∧
    (generate_project_with_progress p3 o10 true).writes = [] ∧
    (generate_project_with_progress p3 o10 true).crashed = none :=
  c10_empty_output_aborts p3 o10 (Or.inl rfl)

end PySprit
